import Mathlib

/-!
Verification of the candidate discovery and filtering pipeline of
`src/scrape.py` (a YouTube VTuber discovery static-site generator).

The Python source is shallowly embedded: each relevant Python function
becomes a Lean definition of the same name.  Records are Python dicts in
the source; the pipeline always creates every key, so they are modelled
as structures with all fields present (with the source's per-field
defaults).  Ambient effects are passed explicitly:

* the current time enters only through `days_ago`, modelled as a
  function argument `d : String → Int` (from ISO date string to whole
  days elapsed);
* network calls (`urlopen`, the details endpoint, the videos endpoint,
  the text-generation endpoint) are modelled as function arguments;
* the JSON library parser used by `load_json` is a parse-oracle
  argument.
-/

/-! ## Configuration constants (src/scrape.py lines 44-61) -/

def MAX_SUBSCRIBERS : Int := 1000

def MAX_CHANNEL_AGE_DAYS : Int := 90

def MIN_VIDEOS : Int := 3

def VTUBER_KEYWORDS : List String :=
  ["vtuber", "ブイチューバー", "Vチューバー",
   "バーチャル", "virtual", "ママ", "パパ",
   "Live2D", "live2d", "配信者", "ゲーム実況",
   "歌ってみた", "初配信", "デビュー"]

def ITEMS_PER_PAGE : Nat := 20

/-! ## Python string primitives

Python's `str.lower`, substring membership (`in`) and
single-character `str.replace` are modelled directly.  Case mapping is
the ASCII one (non-ASCII characters, which Python also mostly leaves
unchanged for the data involved here, are kept as they are). -/

/-- Python `str.lower`, ASCII case mapping. -/
def py_lower (s : String) : String :=
  String.mk (s.toList.map Char.toLower)

/-- Substring occurrence on character lists: does `pat` occur inside the
second list?  (`pat = []` occurs in everything, as in Python.) -/
def contains_sub (pat : List Char) : List Char → Bool
  | [] => pat.isEmpty
  | c :: t => pat.isPrefixOf (c :: t) || contains_sub pat t

/-- Python `needle in hay` for strings. -/
def py_in (needle hay : String) : Bool :=
  contains_sub needle.toList hay.toList

/-- Python `s.replace(pat, rep)` for a single-character pattern (all
replacements performed by the source use one-character patterns). -/
def replace_char (pat : Char) (rep : String) (s : String) : String :=
  String.join (s.toList.map (fun x => if x = pat then rep else String.mk [x]))

/-! ## Data model -/

/-- A latest-video record as built by `get_latest_videos`
(src/scrape.py lines 242-249). -/
structure Video where
  video_id : String := ""
  title : String := ""
  thumbnail : String := ""
  published_at : String := ""
deriving Repr, DecidableEq

/-- A channel / candidate record as built by `get_channel_details`
(src/scrape.py lines 212-223) and later extended by
`collect_candidates` and `approve_candidate`.  Every key the pipeline
ever writes is a field; fields not yet written hold the defaults the
source would supply via `dict.get`. -/
structure Channel where
  channel_id : String := ""
  title : String := ""
  description : String := ""
  custom_url : String := ""
  thumbnail : String := ""
  published_at : String := ""
  subscriber_count : Int := 0
  video_count : Int := 0
  view_count : Int := 0
  keywords : String := ""
  status : String := ""
  discovered_at : String := ""
  introduction : String := ""
  approved_at : String := ""
  latest_videos : List Video := []
deriving Repr, DecidableEq

/-- A search-result snippet as built by `search_channels`
(src/scrape.py lines 172-179). -/
structure Snippet where
  channel_id : String := ""
  title : String := ""
  description : String := ""
  thumbnail : String := ""
  published_at : String := ""
deriving Repr, DecidableEq

/-! ## Filtering (src/scrape.py lines 288-323) -/

/-- `is_likely_vtuber` (src/scrape.py lines 288-294): case-insensitive
keyword search over title, description and keyword blob. -/
def is_likely_vtuber (channel : Channel) : Bool :=
  let text := py_lower (channel.title ++ " " ++ channel.description ++ " " ++ channel.keywords)
  VTUBER_KEYWORDS.any (fun kw => py_in (py_lower kw) text)

/-- Failure reason of the popularity check (src/scrape.py line 305),
parametric in the threshold. -/
def popularity_reasonP (maxSubs : Int) (channel : Channel) : String :=
  "登録者数が" ++ toString maxSubs ++ "人を超えている（" ++ toString channel.subscriber_count ++ "人）"

/-- Failure reason of the channel-age check (src/scrape.py line 312). -/
def age_reasonP (maxAge : Int) (d : String → Int) (channel : Channel) : String :=
  "チャンネル開設から" ++ toString (d channel.published_at) ++ "日経過（上限" ++ toString maxAge ++ "日）"

/-- Failure reason of the video-count check (src/scrape.py line 317). -/
def video_reasonP (minVideos : Int) (channel : Channel) : String :=
  "動画数が" ++ toString channel.video_count ++ "本（最低" ++ toString minVideos ++ "本必要）"

/-- Failure reason of the keyword check (src/scrape.py line 321). -/
def keyword_reason : String := "VTuber関連キーワードが見つからない"

/-- `passes_filters` (src/scrape.py lines 297-323), parametric in the
three numeric thresholds (the source reads them from module constants)
and in the ambient-time function `d` behind `days_ago`.  The truthiness
test `if pub_date:` is the emptiness test on the string. -/
def passes_filtersP (maxSubs maxAge minVideos : Int) (d : String → Int) (channel : Channel) :
    Bool × String :=
  if channel.subscriber_count > maxSubs && channel.subscriber_count != -1 then
    (false, popularity_reasonP maxSubs channel)
  else if channel.published_at != "" && d channel.published_at > maxAge then
    (false, age_reasonP maxAge d channel)
  else if channel.video_count < minVideos then
    (false, video_reasonP minVideos channel)
  else if !(is_likely_vtuber channel) then
    (false, keyword_reason)
  else
    (true, "OK")

/-- `passes_filters` at the source's configured thresholds. -/
def passes_filters (d : String → Int) (channel : Channel) : Bool × String :=
  passes_filtersP MAX_SUBSCRIBERS MAX_CHANNEL_AGE_DAYS MIN_VIDEOS d channel

/-- The last three checks of `passes_filters` (src/scrape.py lines
307-323): what a record that cleared the popularity check is subjected
to. -/
def remaining_checks (d : String → Int) (channel : Channel) : Bool × String :=
  if channel.published_at != "" && d channel.published_at > MAX_CHANNEL_AGE_DAYS then
    (false, age_reasonP MAX_CHANNEL_AGE_DAYS d channel)
  else if channel.video_count < MIN_VIDEOS then
    (false, video_reasonP MIN_VIDEOS channel)
  else if !(is_likely_vtuber channel) then
    (false, keyword_reason)
  else
    (true, "OK")

/-- The popularity check's failing condition (src/scrape.py line 304)
at the configured threshold. -/
def popularity_fail (channel : Channel) : Bool :=
  channel.subscriber_count > MAX_SUBSCRIBERS && channel.subscriber_count != -1

/-- The channel-age check's failing condition (src/scrape.py lines
308-311) at the configured threshold. -/
def age_fail (d : String → Int) (channel : Channel) : Bool :=
  channel.published_at != "" && d channel.published_at > MAX_CHANNEL_AGE_DAYS

/-- The video-count check's failing condition (src/scrape.py line 316)
at the configured threshold. -/
def video_fail (channel : Channel) : Bool :=
  channel.video_count < MIN_VIDEOS

/-- The keyword check's failing condition (src/scrape.py line 320). -/
def keyword_fail (channel : Channel) : Bool :=
  !(is_likely_vtuber channel)

/-! ## Fetcher (src/scrape.py lines 97-112)

`api_request` performs one `urlopen` call inside a try block; `HTTPError`
and `URLError` handlers print a diagnostic and return the empty dict.
The network is modelled as a function from attempt number to response,
so the number of attempts a call consumes is observable. -/

/-- Outcome of one HTTP attempt. -/
inductive HttpResponse where
  | success (body : String)
  | httpError (code : Nat) (reason : String)
  | urlError (msg : String)
deriving Repr, DecidableEq

/-- What one `api_request` call produces: the decoded payload (`none`
models the empty dict `{}` returned on error, `some body` the decoded
response body), the number of `urlopen` attempts performed, and the
diagnostics printed to the console. -/
structure ApiOutcome where
  result : Option String
  attempts : Nat
  diagnostics : List String
deriving Repr, DecidableEq

/-- `api_request` (src/scrape.py lines 97-112).  The single `urlopen`
call consumes attempt 0 of the network behaviour `net`; there is no
loop, so no further attempt is ever consumed. -/
def api_request (endpoint : String) (net : Nat → HttpResponse) : ApiOutcome :=
  match net 0 with
  | .success body =>
      { result := some body, attempts := 1, diagnostics := [] }
  | .httpError code reason =>
      { result := none, attempts := 1,
        diagnostics :=
          ["[ERROR] YouTube API " ++ endpoint ++ ": " ++ toString code ++ " " ++ reason] ++
            (if code = 403 then ["[ERROR] APIクォータ超過の可能性があります"] else []) }
  | .urlError msg =>
      { result := none, attempts := 1,
        diagnostics := ["[ERROR] Network error: " ++ msg] }

/-! ## Persistent store (src/scrape.py lines 83-94) -/

/-- State of a store file on disk. -/
inductive FileState where
  | absent
  | present (content : String)
deriving Repr, DecidableEq

/-- `load_json` (src/scrape.py lines 83-88).  The JSON library is a
parse-oracle argument; `json.load` raising `JSONDecodeError` on
unparsable content is the `Except.error` outcome, since the source
wraps the call in no try/except.  `default` is the optional keyword
argument (`none` is Python's `None`, for which the source substitutes
the empty list). -/
def load_json (parse : String → Option (List Channel)) (file : FileState)
    (default : Option (List Channel)) : Except String (List Channel) :=
  match file with
  | .present content =>
      match parse content with
      | some v => .ok v
      | none => .error "json.decoder.JSONDecodeError"
  | .absent => .ok (default.getD [])

/-! ## Approval (src/scrape.py lines 457-493) -/

/-- The scan loop of `approve_candidate` (src/scrape.py lines 464-470):
`target` is overwritten by each record whose id matches (so it ends as
the last match, or `None`), every other record goes to `remaining` in
order. -/
def approve_scan (channel_id : String) (candidates : List Channel) :
    Option Channel × List Channel :=
  candidates.foldl
    (fun acc c =>
      if c.channel_id = channel_id then (some c, acc.2) else (acc.1, acc.2 ++ [c]))
    (none, [])

/-- Result of `approve_candidate`: the updated candidates list and the
approved entry returned by the function, plus the contents written back
to the approved store file (unchanged when the id is not found, since
the source returns before `save_json`). -/
structure ApproveResult where
  candidates : List Channel
  entry : Option Channel
  approvedAfter : List Channel
deriving Repr, DecidableEq

/-- `approve_candidate` (src/scrape.py lines 457-493).  The two network
collaborators are arguments: `get_videos` stands for
`get_latest_videos` and `gen_intro` for `generate_introduction`; `now`
is the ISO timestamp `datetime.now(timezone.utc).isoformat()`;
`approved` is the content `load_json(APPROVED_FILE, [])` yields. -/
def approve_candidate (get_videos : String → List Video)
    (gen_intro : Channel → List Video → String) (now : String)
    (approved : List Channel) (candidates : List Channel) (channel_id : String) :
    ApproveResult :=
  let scan := approve_scan channel_id candidates
  match scan.1 with
  | none => ⟨candidates, none, approved⟩
  | some target =>
      let videos := get_videos channel_id
      let target1 := { target with latest_videos := videos }
      let target2 := { target1 with introduction := gen_intro target1 videos }
      let target3 := { target2 with status := "approved", approved_at := now }
      ⟨scan.2, some target3, approved ++ [target3]⟩

/-! ## Candidate collection (src/scrape.py lines 390-450) -/

/-- Body of the nested search loop of `collect_candidates`
(src/scrape.py lines 414-419): a hit is recorded only when its id is in
neither the existing-candidate ids nor the approved ids nor among the
snippets gathered so far. -/
def gather_step (existing_ids approved_ids : List String)
    (acc : List String × List (String × Snippet)) (ch : Snippet) :
    List String × List (String × Snippet) :=
  let cid := ch.channel_id
  if cid ∉ existing_ids ∧ cid ∉ approved_ids then
    if cid ∉ acc.2.map Prod.fst then
      (acc.1 ++ [cid], acc.2 ++ [(cid, ch)])
    else acc
  else acc

/-- The search loop of `collect_candidates` (src/scrape.py lines
405-419) over all queries: accumulates `all_channel_ids` and
`channel_snippets` (the latter kept as an association list). -/
def gather_new_ids (search_results : List (List Snippet))
    (existing_ids approved_ids : List String) :
    List String × List (String × Snippet) :=
  search_results.foldl
    (fun acc results => results.foldl (gather_step existing_ids approved_ids) acc)
    ([], [])

/-- `collect_candidates` (src/scrape.py lines 390-450).  `search_results`
is the list of `search_channels` result lists, one per query in
`SEARCH_QUERIES`; `details` stands for `get_channel_details` composed
with the source's `list(set(...))` (an order-scrambling identity on the
duplicate-free id list) and with the iteration over the returned dict;
`d` is the ambient-time function behind `days_ago` and `now` the
discovery timestamp. -/
def collect_candidates (search_results : List (List Snippet))
    (details : List String → List Channel) (d : String → Int) (now : String)
    (existing_candidates approved : List Channel) : List Channel :=
  let existing_ids := existing_candidates.map (fun c => c.channel_id)
  let approved_ids := approved.map (fun c => c.channel_id)
  let gathered := gather_new_ids search_results existing_ids approved_ids
  let all_channel_ids := gathered.1
  let channel_snippets := gathered.2
  if all_channel_ids.isEmpty then existing_candidates
  else
    let detail_list := details all_channel_ids
    let new_candidates := detail_list.filterMap (fun detail =>
      let snippet := (channel_snippets.lookup detail.channel_id).getD {}
      let merged := { detail with
        thumbnail := if detail.thumbnail ≠ "" then detail.thumbnail else snippet.thumbnail }
      if (passes_filters d merged).1 then
        some { merged with discovered_at := now, status := "pending" }
      else none)
    existing_candidates ++ new_candidates

/-! ## Pagination (src/scrape.py lines 926-930 and 1130-1143) -/

/-- The page count computed by `write_all_files` (src/scrape.py line
1138): `max(1, math.ceil(n / ITEMS_PER_PAGE))`, with the float division
modelled as exact rational division. -/
def total_pages (n : Nat) : Nat :=
  max 1 ⌈(n : ℚ) / (ITEMS_PER_PAGE : ℚ)⌉₊

/-- The record slice of one index page (src/scrape.py lines 928-930):
`approved[start:end]` with `start = (page-1)*ITEMS_PER_PAGE`,
`end = start + ITEMS_PER_PAGE`. -/
def page_items (approved : List Channel) (page : Nat) : List Channel :=
  (approved.drop ((page - 1) * ITEMS_PER_PAGE)).take ITEMS_PER_PAGE

/-- The file name each index page is written to (src/scrape.py line
1140). -/
def page_filename (page : Nat) : String :=
  if page = 1 then "index.html" else "page" ++ toString page ++ ".html"

/-! ## Orchestrator dispatch (src/scrape.py lines 1227-1288) -/

/-- How a run of `main` ends at dispatch: a non-zero `sys.exit`, or
proceeding into one of the five operations. -/
inductive MainOutcome where
  | exitFail
  | run (mode : String)
deriving Repr, DecidableEq

/-- The operation selectors `main` recognises (src/scrape.py lines
1239-1284). -/
def valid_modes : List String :=
  ["collect", "approve", "approve-all", "generate", "status"]

/-- The dispatch skeleton of `main` (src/scrape.py lines 1227-1288):
`sys.exit(1)` when the API key is empty, otherwise select the mode from
`sys.argv` (default `"collect"`) and either run it or, for an unknown
mode, print usage and `sys.exit(1)`.  `args` is `sys.argv[1:]`. -/
def main_dispatch (apiKey : String) (args : List String) : MainOutcome :=
  if apiKey = "" then .exitFail
  else
    let mode := args.headD "collect"
    if mode = "collect" then .run mode
    else if mode = "approve" then .run mode
    else if mode = "approve-all" then .run mode
    else if mode = "generate" then .run mode
    else if mode = "status" then .run mode
    else .exitFail

/-! ## Renderer (src/scrape.py lines 129-146 and 822-883) -/

/-- One-decimal fixed-point rendering of `n / d` (round to nearest,
ties to even), modelling Python's `f"{n/d:.1f}"` for the nonnegative
integer inputs arising here (exact up to float-tie artifacts that the
theorems below never exercise). -/
def format_one_decimal (n d : Int) : String :=
  let num := 10 * n
  let q := num / d
  let r := num % d
  let rounded :=
    if 2 * r > d then q + 1
    else if 2 * r < d then q
    else if q % 2 = 0 then q else q + 1
  toString (rounded / 10) ++ "." ++ toString (rounded % 10).natAbs

/-- `format_subscriber_count` (src/scrape.py lines 129-135). -/
def format_subscriber_count (count : Int) : String :=
  if count ≥ 10000 then format_one_decimal count 10000 ++ "万人"
  else if count ≥ 1000 then format_one_decimal count 1000 ++ "千人"
  else toString count ++ "人"

/-- `format_date_jp` (src/scrape.py lines 138-141): `parse_iso8601`
followed by `strftime("%Y年%m月%d日")`, modelled by slicing the
zero-padded year, month and day fields out of the well-formed ISO-8601
input the pipeline stores. -/
def format_date_jp (date_str : String) : String :=
  let s := date_str.toList
  String.mk (s.take 4) ++ "年" ++ String.mk ((s.drop 5).take 2) ++ "月" ++
    String.mk ((s.drop 8).take 2) ++ "日"

/-- `render_vtuber_card` (src/scrape.py lines 822-883).  `delay_repr`
abstracts the float formatting of `index * 0.05` interpolated into the
`animation-delay` style (for index 0 the source renders `"0.0"`);
everything else is the source's f-string verbatim. -/
def render_vtuber_card (vtuber : Channel) (delay_repr : String) : String :=
  let name := vtuber.title
  let thumbnail := vtuber.thumbnail
  let sub_count := vtuber.subscriber_count
  let intro := vtuber.introduction
  let channel_url := "https://www.youtube.com/channel/" ++ vtuber.channel_id
  let pub_date := vtuber.published_at
  let videos := vtuber.latest_videos
  let meta_parts : List String :=
    (if sub_count > 0 then
       ["<span>📊 " ++ format_subscriber_count sub_count ++ "</span>"]
     else if sub_count = -1 then ["<span>📊 非公開</span>"] else []) ++
    (if pub_date ≠ "" then
       ["<span>📅 " ++ format_date_jp pub_date ++ "\u00A0開設</span>"] else [])
  let meta_html := String.intercalate "\n          " meta_parts
  let intro_html :=
    if intro ≠ "" then
      let intro_escaped :=
        replace_char '\n' "<br>" (replace_char '>' "&gt;"
          (replace_char '<' "&lt;" (replace_char '&' "&amp;" intro)))
      "<div class=\"card-intro\">" ++ intro_escaped ++ "</div>"
    else ""
  let videos_html :=
    if videos.isEmpty then "" else
      let video_links := String.join ((videos.take 3).map (fun v =>
        let vtitle :=
          replace_char '>' "&gt;" (replace_char '<' "&lt;"
            (replace_char '&' "&amp;" v.title))
        "<a href=\"https://www.youtube.com/watch?v=" ++ v.video_id ++
          "\" target=\"_blank\" rel=\"noopener\" class=\"video-link\">▶ " ++ vtitle ++
          "</a>\n"))
      "\n      <div class=\"card-videos\">\n        <div class=\"card-videos-title\">最近の動画</div>\n        " ++
        video_links ++ "\n      </div>"
  "\n    <article class=\"vtuber-card\" style=\"animation-delay: " ++ delay_repr ++ "s\">" ++
  "\n      <div class=\"card-header\">" ++
  "\n        <img src=\"" ++ thumbnail ++ "\" alt=\"" ++ name ++ "\" class=\"card-thumbnail\" loading=\"lazy\"" ++
  "\n             onerror=\"this.src=\x27data:image/svg+xml,<svg xmlns=%22http://www.w3.org/2000/svg%22 width=%2264%22 height=%2264%22><rect fill=%22%236C5CE7%22 width=%2264%22 height=%2264%22 rx=%2232%22/><text x=%2232%22 y=%2240%22 fill=%22white%22 text-anchor=%22middle%22 font-size=%2224%22>?</text></svg>\x27\">" ++
  "\n        <div class=\"card-info\">" ++
  "\n          <div class=\"card-name\">" ++
  "\n            <a href=\"" ++ channel_url ++ "\" target=\"_blank\" rel=\"noopener\">" ++ name ++ "</a>" ++
  "\n          </div>" ++
  "\n          <div class=\"card-meta\">" ++
  "\n            " ++ meta_html ++
  "\n          </div>" ++
  "\n        </div>" ++
  "\n      </div>" ++
  "\n      " ++ intro_html ++
  "\n      " ++ videos_html ++
  "\n      <a href=\"" ++ channel_url ++ "\" target=\"_blank\" rel=\"noopener\" class=\"card-cta\">チャンネルを見る →</a>" ++
  "\n    </article>"

/-! ## Claim C1: the hidden-count sentinel bypasses the popularity check -/

/-- C1.  For every channel record whose subscriber count is the
hidden-count sentinel `-1`, `passes_filters` never fails on the
popularity check, whatever the `MAX_SUBSCRIBERS` threshold is: it
evaluates exactly to the remaining checks (age, content count,
keyword). -/
theorem sentinel_bypasses_popularity_check (maxSubs : Int) (d : String → Int)
    (c : Channel) (h : c.subscriber_count = -1) :
    passes_filtersP maxSubs MAX_CHANNEL_AGE_DAYS MIN_VIDEOS d c = remaining_checks d c := by
  simp [passes_filtersP, remaining_checks, h]

/-- A hidden-subscriber-count channel record. -/
def sentinel_channel : Channel :=
  { channel_id := "UCsentinel", title := "VTuberです", subscriber_count := -1,
    video_count := 5 }

/-- Witness for C1, with a threshold of `-5` that the sentinel value
`-1` even exceeds numerically. -/
theorem sentinel_bypasses_popularity_check_witness :
    sentinel_channel.subscriber_count = -1 ∧
      passes_filtersP (-5) MAX_CHANNEL_AGE_DAYS MIN_VIDEOS (fun _ => 0) sentinel_channel =
        remaining_checks (fun _ => 0) sentinel_channel :=
  ⟨rfl, sentinel_bypasses_popularity_check (-5) (fun _ => 0) sentinel_channel rfl⟩

/-! ## Claim C7: check order and short-circuiting of passes_filters -/

/-- C7.  `passes_filters` evaluates the checks in the fixed order
popularity → age → content count → keyword, short-circuits on the first
failing check and returns that check's reason; a record failing an
earlier check never receives a later check's reason, and a record
failing no check passes with reason "OK". -/
theorem passes_filters_check_order (d : String → Int) (c : Channel) :
    (popularity_fail c = true →
      passes_filters d c = (false, popularity_reasonP MAX_SUBSCRIBERS c)) ∧
    (popularity_fail c = false → age_fail d c = true →
      passes_filters d c = (false, age_reasonP MAX_CHANNEL_AGE_DAYS d c)) ∧
    (popularity_fail c = false → age_fail d c = false → video_fail c = true →
      passes_filters d c = (false, video_reasonP MIN_VIDEOS c)) ∧
    (popularity_fail c = false → age_fail d c = false → video_fail c = false →
      keyword_fail c = true → passes_filters d c = (false, keyword_reason)) ∧
    (popularity_fail c = false → age_fail d c = false → video_fail c = false →
      keyword_fail c = false → passes_filters d c = (true, "OK")) := by
  unfold passes_filters passes_filtersP popularity_fail age_fail video_fail keyword_fail
  refine ⟨fun h1 => ?_, fun h1 h2 => ?_, fun h1 h2 h3 => ?_,
    fun h1 h2 h3 h4 => ?_, fun h1 h2 h3 h4 => ?_⟩ <;>
    simp_all <;> split_ifs <;> simp_all <;> omega

/-- A channel record failing the popularity check. -/
def crowded_channel : Channel :=
  { channel_id := "UCcrowded", title := "VTuberです", subscriber_count := 2000,
    video_count := 5 }

/-- Witness for C7: a 2000-subscriber channel fails with the popularity
reason. -/
theorem passes_filters_check_order_witness :
    popularity_fail crowded_channel = true ∧
      passes_filters (fun _ => 0) crowded_channel =
        (false, popularity_reasonP MAX_SUBSCRIBERS crowded_channel) :=
  ⟨by decide, (passes_filters_check_order (fun _ => 0) crowded_channel).1 (by decide)⟩

/-! ## Claim C9: empty published_at skips the age check -/

/-- C9.  For every channel record whose `published_at` field is the
empty string (the default `get_channel_details` stores when the API
omits it), `passes_filters` skips the channel-age check entirely: the
outcome does not depend on the ambient-time function at all, and the
record passes whenever the popularity, video-count and keyword checks
pass. -/
theorem empty_published_at_skips_age_check (c : Channel) (h : c.published_at = "") :
    (∀ d1 d2 : String → Int, passes_filters d1 c = passes_filters d2 c) ∧
    (popularity_fail c = false → video_fail c = false → keyword_fail c = false →
      ∀ d : String → Int, passes_filters d c = (true, "OK")) := by
  constructor
  · intro d1 d2
    unfold passes_filters passes_filtersP
    simp [h]
  · intro h1 h2 h3 d
    unfold passes_filters passes_filtersP
    unfold popularity_fail at h1
    unfold video_fail at h2
    unfold keyword_fail at h3
    simp_all [h]
    split_ifs <;> simp_all <;> omega

/-- A channel record with unknown creation date. -/
def undated_channel : Channel :=
  { channel_id := "UCundated", title := "歌ってみたチャンネル", published_at := "",
    subscriber_count := 10, video_count := 100 }

/-- Witness for C9: even under an ambient-time function reporting an
age of 99999 days, the undated channel passes. -/
theorem empty_published_at_skips_age_check_witness :
    undated_channel.published_at = "" ∧
      passes_filters (fun _ => 99999) undated_channel = (true, "OK") :=
  ⟨rfl, (empty_published_at_skips_age_check undated_channel rfl).2
    (by decide) (by decide) (by decide) (fun _ => 99999)⟩

/-! ## Claim C4: fetch error handling (corrected: there is no retry) -/

/-- A network behaviour whose first attempt hits a transient 5xx error
and whose second attempt would succeed. -/
def transient_then_success_net : Nat → HttpResponse := fun n =>
  if n = 0 then .httpError 500 "Internal Server Error" else .success "data"

/-- Counterexample to C4 as stated: on a transient 5xx failure
`api_request` performs no retry at all — a single attempt is made and
the empty result is returned even though the very next attempt would
have succeeded. -/
theorem api_request_no_retry_counterexample :
    transient_then_success_net 1 = HttpResponse.success "data" ∧
      (api_request "search" transient_then_success_net).attempts = 1 ∧
      (api_request "search" transient_then_success_net).result = none :=
  ⟨rfl, rfl, rfl⟩

/-- C4 amended.  Every `api_request` call makes exactly one HTTP
attempt; on an HTTP error (5xx included) or a network error it returns
the empty result immediately — without retrying and without raising —
and on a 403 it additionally emits the quota diagnostic; on success it
returns the decoded payload. -/
theorem api_request_single_attempt (endpoint : String) (net : Nat → HttpResponse) :
    (api_request endpoint net).attempts = 1 ∧
    (∀ code reason, net 0 = .httpError code reason →
      (api_request endpoint net).result = none ∧
        (code = 403 →
          "[ERROR] APIクォータ超過の可能性があります" ∈ (api_request endpoint net).diagnostics)) ∧
    (∀ msg, net 0 = .urlError msg → (api_request endpoint net).result = none) ∧
    (∀ body, net 0 = .success body → (api_request endpoint net).result = some body) := by
  cases h : net 0 <;> simp_all [api_request]

/-- A network behaviour that always reports a 403 quota failure. -/
def quota_net : Nat → HttpResponse := fun _ => .httpError 403 "Forbidden"

/-- Witness for the amended C4 at a 403 quota failure. -/
theorem api_request_single_attempt_witness :
    (api_request "channels" quota_net).attempts = 1 ∧
      (api_request "channels" quota_net).result = none ∧
      "[ERROR] APIクォータ超過の可能性があります" ∈ (api_request "channels" quota_net).diagnostics := by
  have h := api_request_single_attempt "channels" quota_net
  exact ⟨h.1, (h.2.1 403 "Forbidden" rfl).1, (h.2.1 403 "Forbidden" rfl).2 rfl⟩

/-! ## Claim C6: corrupt store files (corrected: corruption is fatal) -/

/-- A minimal JSON parse oracle: accepts the literal empty array and
rejects everything else.  (Any JSON parser rejects the content
`"corrupt"`; only that rejection matters below.) -/
def strict_parse : String → Option (List Channel) :=
  fun s => if s = "[]" then some [] else none

/-- Counterexample to C6 as stated: loading a store file whose contents
are unparsable does not yield the empty collection — `load_json` wraps
`json.load` in no try/except, so the parse error propagates and the run
dies. -/
theorem load_json_corrupt_fatal_counterexample :
    strict_parse "corrupt" = none ∧
      load_json strict_parse (.present "corrupt") (some []) =
        .error "json.decoder.JSONDecodeError" ∧
      load_json strict_parse (.present "corrupt") (some []) ≠ .ok [] :=
  ⟨rfl, rfl, fun h => Except.noConfusion h⟩

/-- C6 amended.  A missing store file loads as the supplied default
(the empty collection when no default is given); an existing file loads
as its parsed contents; but an existing, unparsable file raises the
JSON decode error out of `load_json` — cache corruption is fatal to the
run, not treated as an empty collection. -/
theorem load_json_cases (parse : String → Option (List Channel)) (file : FileState)
    (default : Option (List Channel)) :
    (file = .absent → load_json parse file default = .ok (default.getD [])) ∧
    (∀ content, file = .present content → parse content = none →
      load_json parse file default = .error "json.decoder.JSONDecodeError") ∧
    (∀ content v, file = .present content → parse content = some v →
      load_json parse file default = .ok v) := by
  cases file <;> simp_all [load_json]

/-- Witness for the amended C6 at a corrupt store file. -/
theorem load_json_cases_witness :
    load_json strict_parse (.present "corrupt") (some []) =
      .error "json.decoder.JSONDecodeError" :=
  (load_json_cases strict_parse (.present "corrupt") (some [])).2.1 "corrupt" rfl rfl

/-! ## Claim C8: exit behaviour (corrected: unknown modes also exit non-zero) -/

/-- Counterexample to C8 as stated: with the credential present, an
unrecognized operation selector also terminates the run with a non-zero
exit (src/scrape.py lines 1285-1288), so a missing credential is not
the only such input. -/
theorem main_unknown_mode_counterexample :
    "APIKEY" ≠ "" ∧ main_dispatch "APIKEY" ["frobnicate"] = .exitFail := by
  exact ⟨by decide, rfl⟩

/-- C8 amended.  The run terminates with a non-zero exit at dispatch
exactly when the required credential is absent or the operation
selector (default `"collect"`) is not one of
collect/approve/approve-all/generate/status; otherwise the selected
operation proceeds. -/
theorem main_dispatch_exit_iff (apiKey : String) (args : List String) :
    main_dispatch apiKey args = .exitFail ↔
      (apiKey = "" ∨ args.headD "collect" ∉ valid_modes) := by
  simp only [main_dispatch, valid_modes]
  split_ifs <;> simp_all

/-! ## Claim C2: approving moves exactly one record, and is a no-op the
second time -/

/-- The remaining-list component of the approval scan loop: every
non-matching record survives in order. -/
lemma approve_scan_go_snd (cid : String) (l : List Channel) (t : Option Channel)
    (acc : List Channel) :
    (l.foldl
        (fun acc c => if c.channel_id = cid then (some c, acc.2) else (acc.1, acc.2 ++ [c]))
        (t, acc)).2 = acc ++ l.filter (fun c => c.channel_id ≠ cid) := by
  induction l generalizing t acc with
  | nil => simp
  | cons c tl ih =>
      by_cases h : c.channel_id = cid
      · simp [List.foldl_cons, h, ih]
      · simp [List.foldl_cons, h, ih]

/-- The target component of the approval scan loop when no record
matches: the accumulator passes through. -/
lemma approve_scan_go_fst_none (cid : String) (l : List Channel) (t : Option Channel)
    (acc : List Channel) (h : ∀ c ∈ l, c.channel_id ≠ cid) :
    (l.foldl
        (fun acc c => if c.channel_id = cid then (some c, acc.2) else (acc.1, acc.2 ++ [c]))
        (t, acc)).1 = t := by
  induction l generalizing t acc with
  | nil => rfl
  | cons c tl ih =>
      have hc : c.channel_id ≠ cid := h c (by simp)
      simp only [List.foldl_cons, if_neg hc]
      exact ih t (acc ++ [c]) (fun x hx => h x (by simp [hx]))

/-- The target component of the approval scan loop when some record
matches: some matching record is selected. -/
lemma approve_scan_go_fst_found (cid : String) (l : List Channel) (t : Option Channel)
    (acc : List Channel) (h : ∃ c ∈ l, c.channel_id = cid) :
    ∃ u, (l.foldl
        (fun acc c => if c.channel_id = cid then (some c, acc.2) else (acc.1, acc.2 ++ [c]))
        (t, acc)).1 = some u ∧ u.channel_id = cid := by
  induction l generalizing t acc with
  | nil => simp at h
  | cons c tl ih =>
      by_cases hc : c.channel_id = cid
      · simp only [List.foldl_cons, if_pos hc]
        by_cases htl : ∃ x ∈ tl, x.channel_id = cid
        · exact ih (some c) acc htl
        · have hall : ∀ x ∈ tl, x.channel_id ≠ cid := by
            intro x hx
            exact fun hxe => htl ⟨x, hx, hxe⟩
          exact ⟨c, approve_scan_go_fst_none cid tl (some c) acc hall, hc⟩
      · simp only [List.foldl_cons, if_neg hc]
        refine ih t (acc ++ [c]) ?_
        rcases h with ⟨x, hx, hxe⟩
        rcases List.mem_cons.mp hx with h1 | h1
        · exact absurd (h1 ▸ hxe) hc
        · exact ⟨x, h1, hxe⟩

/-- The remaining list computed by `approve_scan` is exactly the
candidates whose id differs from the approved one. -/
lemma approve_scan_snd (cid : String) (l : List Channel) :
    (approve_scan cid l).2 = l.filter (fun c => c.channel_id ≠ cid) := by
  simpa using approve_scan_go_snd cid l none []

/-- `approve_scan` finds no target exactly on lists without the id. -/
lemma approve_scan_fst_none (cid : String) (l : List Channel)
    (h : ∀ c ∈ l, c.channel_id ≠ cid) : (approve_scan cid l).1 = none :=
  approve_scan_go_fst_none cid l none [] h

/-- `approve_scan` finds a target with the requested id on lists
containing the id. -/
lemma approve_scan_fst_found (cid : String) (l : List Channel)
    (h : ∃ c ∈ l, c.channel_id = cid) :
    ∃ u, (approve_scan cid l).1 = some u ∧ u.channel_id = cid :=
  approve_scan_go_fst_found cid l none [] h

/-- C2.  Approving identifier `X` present in the candidates list
removes exactly the records with that id from the candidates list
(leaving all others in order), appends exactly one entry with id `X`
to the approved collection — with status `"approved"` and the approval
timestamp set — and returns it; invoking the approval a second time
with the same identifier on the updated state changes nothing and
reports not-found (`entry = none`) instead of creating a duplicate. -/
theorem approve_candidate_moves_record (gv : String → List Video)
    (gi : Channel → List Video → String) (now : String)
    (approved candidates : List Channel) (X : String)
    (h : ∃ c ∈ candidates, c.channel_id = X) :
    (approve_candidate gv gi now approved candidates X).candidates =
        candidates.filter (fun c => c.channel_id ≠ X) ∧
    (∃ t, (approve_candidate gv gi now approved candidates X).entry = some t ∧
      (approve_candidate gv gi now approved candidates X).approvedAfter = approved ++ [t] ∧
      t.channel_id = X ∧ t.status = "approved" ∧ t.approved_at = now) ∧
    approve_candidate gv gi now
        (approve_candidate gv gi now approved candidates X).approvedAfter
        (approve_candidate gv gi now approved candidates X).candidates X =
      ⟨(approve_candidate gv gi now approved candidates X).candidates, none,
        (approve_candidate gv gi now approved candidates X).approvedAfter⟩ := by
  obtain ⟨u, hu, hid⟩ := approve_scan_fst_found X candidates h
  have hsnd := approve_scan_snd X candidates
  have hR : approve_candidate gv gi now approved candidates X =
      ⟨candidates.filter (fun c => c.channel_id ≠ X),
        some { u with
          latest_videos := gv X,
          introduction := gi { u with latest_videos := gv X } (gv X),
          status := "approved", approved_at := now },
        approved ++ [{ u with
          latest_videos := gv X,
          introduction := gi { u with latest_videos := gv X } (gv X),
          status := "approved", approved_at := now }]⟩ := by
    simp [approve_candidate, hu, hsnd]
  have hnone : (approve_scan X (candidates.filter (fun c => c.channel_id ≠ X))).1 = none := by
    apply approve_scan_fst_none
    intro c hc
    have := List.of_mem_filter hc
    simpa using this
  refine ⟨by rw [hR], ⟨_, by rw [hR], by rw [hR], by simpa using hid, rfl, rfl⟩, ?_⟩
  rw [hR]
  simp only [decide_not] at hnone
  simp [approve_candidate, hnone]

/-- A pending candidate record. -/
def pending_candidate : Channel :=
  { channel_id := "UCpending", title := "テスト", status := "pending" }

/-- Witness for C2 on a one-element candidates list. -/
theorem approve_candidate_moves_record_witness :
    (approve_candidate (fun _ => []) (fun _ _ => "紹介文") "2026-10-12T00:00:00+00:00"
        [] [pending_candidate] "UCpending").candidates =
      [pending_candidate].filter (fun c => c.channel_id ≠ "UCpending") :=
  (approve_candidate_moves_record (fun _ => []) (fun _ _ => "紹介文")
    "2026-10-12T00:00:00+00:00" [] [pending_candidate] "UCpending" (by decide)).1

/-! ## Claim C3: pagination covers the approved list exactly -/

/-- The page count `max(1, ceil(n / ITEMS_PER_PAGE))` equals the
executable natural-number formula `max 1 ((n + ITEMS_PER_PAGE - 1) /
ITEMS_PER_PAGE)`. -/
lemma total_pages_eq (n : Nat) :
    total_pages n = max 1 ((n + ITEMS_PER_PAGE - 1) / ITEMS_PER_PAGE) := by
  have h20 : (0 : ℚ) < (ITEMS_PER_PAGE : ℚ) := by norm_num [ITEMS_PER_PAGE]
  unfold total_pages
  congr 1
  apply le_antisymm
  · rw [Nat.ceil_le, div_le_iff₀ h20]
    have hn : n ≤ ((n + ITEMS_PER_PAGE - 1) / ITEMS_PER_PAGE) * ITEMS_PER_PAGE := by
      simp only [ITEMS_PER_PAGE]
      omega
    exact_mod_cast hn
  · rcases Nat.eq_zero_or_pos ((n + ITEMS_PER_PAGE - 1) / ITEMS_PER_PAGE) with h0 | hpos
    · simp [h0]
    · have hlt : ((n + ITEMS_PER_PAGE - 1) / ITEMS_PER_PAGE - 1) * ITEMS_PER_PAGE < n := by
        simp only [ITEMS_PER_PAGE] at hpos ⊢
        omega
      have hq : (((n + ITEMS_PER_PAGE - 1) / ITEMS_PER_PAGE - 1 : Nat) : ℚ) <
          (n : ℚ) / (ITEMS_PER_PAGE : ℚ) := by
        rw [lt_div_iff₀ h20]
        exact_mod_cast hlt
      have h2 := Nat.lt_ceil.mpr hq
      omega

/-- Slicing a list into `ITEMS_PER_PAGE`-sized pages and concatenating
the slices in page order reproduces the list, for any page count large
enough to cover it. -/
lemma page_items_flatten (k : Nat) : ∀ l : List Channel, l.length ≤ k * ITEMS_PER_PAGE →
    ((List.range k).map (fun j => page_items l (j + 1))).flatten = l := by
  induction k with
  | zero =>
      intro l hl
      simp only [Nat.zero_mul, Nat.le_zero, List.length_eq_zero] at hl
      simp [hl]
  | succ k ih =>
      intro l hl
      rw [List.range_succ_eq_map]
      simp only [List.map_cons, List.map_map, List.flatten_cons]
      have h1 : page_items l 1 = l.take ITEMS_PER_PAGE := by
        simp [page_items]
      have h2 : ((List.range k).map (fun j => page_items l (Nat.succ j + 1))).flatten =
          l.drop ITEMS_PER_PAGE := by
        have hfun : (fun j => page_items l (Nat.succ j + 1)) =
            (fun j => page_items (l.drop ITEMS_PER_PAGE) (j + 1)) := by
          funext j
          simp only [page_items, List.drop_drop, Nat.succ_add_sub_one, Nat.add_sub_cancel]
          congr 2
          simp only [Nat.succ_eq_add_one]
          ring
        rw [hfun]
        apply ih
        simp only [List.length_drop]
        rw [Nat.succ_mul] at hl
        omega
      rw [Function.comp_def] at *
      rw [h1]
      calc l.take ITEMS_PER_PAGE ++ ((List.range k).map
            (fun j => page_items l (Nat.succ j + 1))).flatten
          = l.take ITEMS_PER_PAGE ++ l.drop ITEMS_PER_PAGE := by rw [h2]
        _ = l := List.take_append_drop _ _

/-- The page count always covers the whole list. -/
lemma le_total_pages_mul (n : Nat) : n ≤ total_pages n * ITEMS_PER_PAGE := by
  rw [total_pages_eq]
  simp only [ITEMS_PER_PAGE]
  omega

/-- C3.  For every approved list of length `N` the number of generated
index pages is `max(1, ceil(N / ITEMS_PER_PAGE))` (stated through its
executable form); page 1 is written as `index.html` and every page
`i ≠ 1` as `page{i}.html`; and concatenating the record slices of pages
`1..total_pages` in page order reproduces the full sorted approved list
with no gaps or repeats. -/
theorem pagination_covers_list (approved : List Channel) (i : Nat) (hi : i ≠ 1) :
    total_pages approved.length =
        max 1 ((approved.length + ITEMS_PER_PAGE - 1) / ITEMS_PER_PAGE) ∧
    ((List.range (total_pages approved.length)).map
        (fun j => page_items approved (j + 1))).flatten = approved ∧
    page_filename 1 = "index.html" ∧
    page_filename i = "page" ++ toString i ++ ".html" := by
  refine ⟨total_pages_eq approved.length,
    page_items_flatten _ approved (le_total_pages_mul _), rfl, ?_⟩
  simp [page_filename, hi]

/-- Witness for C3 at page 2. -/
theorem pagination_covers_list_witness :
    page_filename 2 = "page" ++ toString 2 ++ ".html" :=
  (pagination_covers_list [] 2 (by decide)).2.2.2

/-! ## Claim C10: candidate collection is append-only -/

/-- Invariant of the inner search loop: ids gathered over one result
list are outside both id sets whenever the already-gathered ones are. -/
lemma gather_inner_ids (e a : List String) (results : List Snippet) :
    ∀ acc : List String × List (String × Snippet),
      (∀ cid ∈ acc.1, cid ∉ e ∧ cid ∉ a) →
      ∀ cid ∈ (results.foldl (gather_step e a) acc).1, cid ∉ e ∧ cid ∉ a := by
  induction results with
  | nil => intro acc hacc; exact hacc
  | cons ch tl ih =>
      intro acc hacc
      apply ih
      dsimp only [gather_step]
      by_cases h1 : ch.channel_id ∉ e ∧ ch.channel_id ∉ a
      · by_cases h2 : ch.channel_id ∉ acc.2.map Prod.fst
        · rw [if_pos h1, if_pos h2]
          intro cid hcid
          rcases List.mem_append.mp hcid with h | h
          · exact hacc cid h
          · have hcc : cid = ch.channel_id := by simpa using h
            exact hcc ▸ h1
        · rw [if_pos h1, if_neg h2]
          exact hacc
      · rw [if_neg h1]
        exact hacc

/-- Invariant of the outer search loop over all queries. -/
lemma gather_outer_ids (e a : List String) (sr : List (List Snippet)) :
    ∀ acc : List String × List (String × Snippet),
      (∀ cid ∈ acc.1, cid ∉ e ∧ cid ∉ a) →
      ∀ cid ∈ (sr.foldl (fun acc results => results.foldl (gather_step e a) acc) acc).1,
        cid ∉ e ∧ cid ∉ a := by
  induction sr with
  | nil => intro acc hacc; exact hacc
  | cons r tl ih => intro acc hacc; exact ih _ (gather_inner_ids e a r acc hacc)

/-- Every id gathered by the search loop is new: in neither the
existing-candidate ids nor the approved ids. -/
lemma gather_new_ids_new (sr : List (List Snippet)) (e a : List String) :
    ∀ cid ∈ (gather_new_ids sr e a).1, cid ∉ e ∧ cid ∉ a :=
  gather_outer_ids e a sr ([], []) (by simp)

/-- C10.  `collect_candidates` is append-only: the prior candidates
list survives unmodified, in order, as the prefix of the result; every
record appended after it has a channel id that is in neither the prior
candidates nor the approved collection (given that the details endpoint
returns records for the requested ids only); and when the search loop
finds no new channel id the prior list is returned unchanged. -/
theorem collect_candidates_append_only (sr : List (List Snippet))
    (details : List String → List Channel) (d : String → Int) (now : String)
    (existing approved : List Channel)
    (hapi : ∀ ch ∈ details (gather_new_ids sr (existing.map (fun c => c.channel_id))
        (approved.map (fun c => c.channel_id))).1,
      ch.channel_id ∈ (gather_new_ids sr (existing.map (fun c => c.channel_id))
        (approved.map (fun c => c.channel_id))).1) :
    (collect_candidates sr details d now existing approved).take existing.length = existing ∧
    (∀ c ∈ (collect_candidates sr details d now existing approved).drop existing.length,
      c.channel_id ∉ existing.map (fun x => x.channel_id) ∧
      c.channel_id ∉ approved.map (fun x => x.channel_id)) ∧
    ((gather_new_ids sr (existing.map (fun c => c.channel_id))
        (approved.map (fun c => c.channel_id))).1 = [] →
      collect_candidates sr details d now existing approved = existing) := by
  have hids := gather_new_ids_new sr (existing.map (fun c => c.channel_id))
    (approved.map (fun c => c.channel_id))
  by_cases hemp : (gather_new_ids sr (existing.map (fun c => c.channel_id))
      (approved.map (fun c => c.channel_id))).1.isEmpty
  · have hcoll : collect_candidates sr details d now existing approved = existing := by
      unfold collect_candidates
      simp [hemp]
    refine ⟨by rw [hcoll, List.take_length], ?_, fun _ => hcoll⟩
    rw [hcoll, List.drop_length]
    intro c hc
    simp at hc
  · have hcoll : collect_candidates sr details d now existing approved =
        existing ++ (details (gather_new_ids sr (existing.map (fun c => c.channel_id))
            (approved.map (fun c => c.channel_id))).1).filterMap (fun detail =>
          let snippet := (((gather_new_ids sr (existing.map (fun c => c.channel_id))
              (approved.map (fun c => c.channel_id))).2).lookup detail.channel_id).getD {}
          let merged := { detail with
            thumbnail := if detail.thumbnail ≠ "" then detail.thumbnail else snippet.thumbnail }
          if (passes_filters d merged).1 then
            some { merged with discovered_at := now, status := "pending" }
          else none) := by
      unfold collect_candidates
      simp [hemp]
    refine ⟨by rw [hcoll, List.take_left], ?_, ?_⟩
    · rw [hcoll, List.drop_left]
      intro c hc
      obtain ⟨detail, hdet, hf⟩ := List.mem_filterMap.mp hc
      have hcid : c.channel_id = detail.channel_id := by
        dsimp only at hf
        split_ifs at hf
        all_goals cases hf
        all_goals rfl
      exact hcid ▸ hids detail.channel_id (hapi detail hdet)
    · intro h
      rw [h] at hemp
      simp at hemp

/-- One snippet naming a channel id absent from the concrete stores
below. -/
def fresh_snippet : Snippet :=
  { channel_id := "UCfresh", title := "新人VTuberです" }

/-- The details response for the witness: the requested channel only. -/
def fresh_details : List String → List Channel := fun ids =>
  if ids = ["UCfresh"] then
    [{ channel_id := "UCfresh", title := "新人VTuberです", subscriber_count := 10,
       video_count := 5 }]
  else []

/-- Witness for C10 on one prior candidate, one approved record and one
newly discovered channel. -/
theorem collect_candidates_append_only_witness :
    (collect_candidates [[fresh_snippet]] fresh_details (fun _ => 0) "T"
        [pending_candidate] [sentinel_channel]).take 1 = [pending_candidate] :=
  (collect_candidates_append_only [[fresh_snippet]] fresh_details (fun _ => 0) "T"
    [pending_candidate] [sentinel_channel] (by decide)).1

/-! ## Claim C5: HTML escaping of user-supplied text (code bug: the
channel name is embedded unescaped) -/

/-- A channel record whose user-supplied title carries markup
characters. -/
def injected_channel : Channel :=
  { channel_id := "UCevil", title := "<b>x</b>" }

/-- A channel record whose introduction carries markup characters and a
newline. -/
def intro_channel : Channel :=
  { channel_id := "UCintro", introduction := "a<b&c\ngood" }

set_option maxRecDepth 40000

/-- C5 evaluated at the failing input.  The introduction is escaped as
the spec demands (first conjunct), but the channel name is embedded
verbatim: the raw title `<b>x</b>` survives into the card markup and no
escaped form of it is produced anywhere — the claim's "no raw `<` or
`>` from record text survives" is violated by `render_vtuber_card`. -/
theorem render_card_embeds_raw_name :
    py_in "a&lt;b&amp;c<br>good" (render_vtuber_card intro_channel "0.0") = true ∧
    py_in "alt=\"<b>x</b>\"" (render_vtuber_card injected_channel "0.0") = true ∧
    py_in "rel=\"noopener\"><b>x</b></a>" (render_vtuber_card injected_channel "0.0") = true ∧
    py_in "&lt;" (render_vtuber_card injected_channel "0.0") = false ∧
    py_in "&gt;" (render_vtuber_card injected_channel "0.0") = false := by
  refine ⟨by decide, by decide, by decide, by decide, by decide⟩
